import Mathlib

/-!
Verification of the context-assembly, citation-formatting and orchestration
logic of `chat_app.py` (function `search_and_answer` and the history handling
in `main`).  Python strings are modelled as lists of characters (`Str`), the
two external collaborators (Tavily search, Cohere chat) as record-of-function
values whose calls return `Except` (an `Except.error` models a raised
exception), and the orchestrator is instrumented with counters recording how
many times each collaborator was invoked during a turn.
-/

/-- Python strings, modelled as lists of characters. -/
abbrev Str := List Char

/-- Python `s.strip()`: remove leading and trailing whitespace characters. -/
def pyStrip (s : Str) : Str :=
  ((s.dropWhile Char.isWhitespace).reverse.dropWhile Char.isWhitespace).reverse

/-- Python `s.replace("\n", " ")` for the single-character pattern used at
line 65: every newline character becomes one space. -/
def replaceNewlines (s : Str) : Str :=
  s.map (fun c => if c = '\n' then ' ' else c)

/-- One Tavily search-result record (a Python dict); `none` in a field models
an absent key, matching the `s.get(key, default)` accesses at lines 63-65. -/
structure SearchResult where
  title : Option Str
  url : Option Str
  content : Option Str

/-- The value returned by `tv_client.search` (line 54): either a dict whose
`"results"` key may be present or absent, or a non-dict value. -/
inductive SearchResponse where
  | dict (results : Option (List SearchResult))
  | nonDict

/-- Line 55: `search_result.get("results", []) if isinstance(search_result, dict) else []`. -/
def resultsOf : SearchResponse → List SearchResult
  | SearchResponse.dict (some rs) => rs
  | SearchResponse.dict none => []
  | SearchResponse.nonDict => []

/-- The object returned by `co_client.chat` (line 82): it may or may not
expose a `text` attribute; `reprStr` models `str(resp)`. -/
structure ChatResponse where
  text : Option Str
  reprStr : Str

/-- Line 84: `getattr(resp, "text", str(resp))`. -/
def extractText (r : ChatResponse) : Str := r.text.getD r.reprStr

/-- The Tavily client: calling `search` on the query either raises (error) or
returns a response value.  The fixed `search_depth`/`max_results` arguments
carry no information and are not modelled. -/
structure TvClient where
  search : Str → Except Str SearchResponse

/-- The Cohere client: calling `chat` on the message either raises (error) or
returns a response.  The fixed `model`/`temperature` arguments are not
modelled. -/
structure CoClient where
  chat : Str → Except Str ChatResponse

/-- Line 63: `s.get("title", "No title").strip()`. -/
def titleOf (t : Option Str) : Str := pyStrip (t.getD ("No title".data))

/-- Line 64: `s.get("url", "").strip()`. -/
def urlOf (u : Option Str) : Str := pyStrip (u.getD [])

/-- Line 65: `s.get("content", "").replace("\n", " ").strip()[:800]`. -/
def snippetOf (c : Option Str) : Str :=
  (pyStrip (replaceNewlines (c.getD []))).take 800

/-- Decimal rendering of a natural number, as in Python `f"{i}"`. -/
def natStr (n : Nat) : Str := Nat.toDigits 10 n

/-- Line 66: `f"[{i}] {title}\nURL: {url}\n{content}\n"`. -/
def contextPart (i : Nat) (s : SearchResult) : Str :=
  "[".data ++ natStr i ++ "] ".data ++ titleOf s.title ++ "\nURL: ".data ++
    urlOf s.url ++ "\n".data ++ snippetOf s.content ++ "\n".data

/-- Lines 61-66: the loop `for i, s in enumerate(sources, start=1)` building
`context_parts`; the parameter `i` is the 1-based start index. -/
def contextParts (i : Nat) : List SearchResult → List Str
  | [] => []
  | s :: rest => contextPart i s :: contextParts (i + 1) rest

/-- Python `sep.join(parts)`. -/
def joinSep (sep : Str) : List Str → Str
  | [] => []
  | [p] => p
  | p :: ps => p ++ sep ++ joinSep sep ps

/-- Line 68: `context = "\n\n".join(context_parts)`. -/
def context (sources : List SearchResult) : Str :=
  joinSep ("\n\n".data) (contextParts 1 sources)

/-- Lines 71-79: the prompt template. -/
def prompt (question ctx : Str) : Str :=
  "Answer the question: ".data ++ question ++ "\n\n".data ++
    "Use only the following sources and cite them inline as [1], [2], etc.\n\n".data ++
    ctx ++ "\n\n".data ++
    "Requirements:\n- Be factual\n- Cite sources using [n]\n- Include a 'Sources' section with title and URL\n".data

/-- The outcome of one call to `search_and_answer`, instrumented with the
number of calls made to each collaborator during the turn. -/
structure TurnResult where
  text : Str
  sources : List SearchResult
  searchCalls : Nat
  chatCalls : Nat

/-- Lines 48-89: `search_and_answer(question, co_client, tv_client)`.  A
`none` client models a falsy (None) handle from `init_clients`; the `try`
block is modelled by propagating `Except.error` from either collaborator call
into the `f"Error: {e}"` return at line 89. -/
def search_and_answer (question : Str) (co_client : Option CoClient)
    (tv_client : Option TvClient) : TurnResult :=
  match co_client, tv_client with
  | some co, some tv =>
    match tv.search question with
    | Except.error e => ⟨"Error: ".data ++ e, [], 1, 0⟩
    | Except.ok search_result =>
      let sources := resultsOf search_result
      if sources.isEmpty then
        ⟨"No information found on this topic.".data, [], 1, 0⟩
      else
        match co.chat (prompt question (context sources)) with
        | Except.error e => ⟨"Error: ".data ++ e, [], 1, 1⟩
        | Except.ok resp => ⟨extractText resp, sources, 1, 1⟩
  | _, _ => ⟨"Missing API clients. Check API keys.".data, [], 0, 0⟩

/-- One entry of `st.session_state.history` (lines 110-114). -/
structure HistoryEntry where
  question : Str
  answer : Str
  sources : List SearchResult

/-- Lines 105-114: one pass of the turn handler.  `none` models
`st.chat_input` returning None; the guard is `if question and question.strip()`.
Returns the new history together with the number of search and chat calls the
turn performed. -/
def processTurn (co_client : Option CoClient) (tv_client : Option TvClient)
    (history : List HistoryEntry) (question : Option Str) :
    List HistoryEntry × Nat × Nat :=
  match question with
  | none => (history, 0, 0)
  | some q =>
    if !q.isEmpty && !(pyStrip q).isEmpty then
      let r := search_and_answer q co_client tv_client
      (history ++ [⟨q, r.text, r.sources⟩], r.searchCalls, r.chatCalls)
    else (history, 0, 0)

/-- The entry (if any) that the turn handler appends for one input: derived
from `processTurn`, used to state that history grows append-only. -/
def turnEntry (co_client : Option CoClient) (tv_client : Option TvClient)
    (question : Option Str) : Option HistoryEntry :=
  match question with
  | none => none
  | some q =>
    if !q.isEmpty && !(pyStrip q).isEmpty then
      some ⟨q, (search_and_answer q co_client tv_client).text,
        (search_and_answer q co_client tv_client).sources⟩
    else none

/-- A whole session: fold the turn handler over a sequence of inputs,
starting from an initial history. -/
def runSession (co_client : Option CoClient) (tv_client : Option TvClient)
    (init : List HistoryEntry) (inputs : List (Option Str)) : List HistoryEntry :=
  inputs.foldl (fun h q => (processTurn co_client tv_client h q).1) init

/-- `needle` occurs contiguously inside `hay`. -/
def occursIn (needle hay : Str) : Prop :=
  ∃ pre post, hay = pre ++ needle ++ post

/-- Search stub: returns a dict without a "results" key. -/
def tvNoResults : TvClient := ⟨fun _ => Except.ok (SearchResponse.dict none)⟩

/-- Search stub: raises an exception. -/
def tvRaises : TvClient := ⟨fun _ => Except.error ("boom".data)⟩

/-- A concrete search result with every key present. -/
def rA : SearchResult :=
  ⟨some ("  Alpha  ".data), some ("http://a.example".data), some ("alpha content".data)⟩

/-- A concrete search result with every key absent. -/
def rB : SearchResult := ⟨none, none, none⟩

/-- A concrete search result whose content holds a newline. -/
def rC : SearchResult :=
  ⟨some ("Gamma".data), some ("http://c.example".data), some ("line1\nline2".data)⟩

/-- Search stub: returns three results. -/
def tvThreeResults : TvClient :=
  ⟨fun _ => Except.ok (SearchResponse.dict (some [rA, rB, rC]))⟩

/-- Chat stub: returns a response exposing a text attribute. -/
def coAnswers : CoClient :=
  ⟨fun _ => Except.ok ⟨some ("An answer [1].".data), "resp".data⟩⟩

/-- Chat stub: raises an exception. -/
def coRaises : CoClient := ⟨fun _ => Except.error ("quota".data)⟩

set_option maxRecDepth 10000

/-- A content value whose collapsed form starts with a space and has 801
further characters; the code trims that space away before truncating. -/
def c3content : Str := ' ' :: List.replicate 801 'a'

/-- C1: with both clients present, when the search call succeeds but yields an
empty result list (also when the response is not a dict, or the dict lacks
the "results" key), `search_and_answer` returns the literal no-information
message together with an empty source list, and the AnswerClient is called
zero times during the turn. -/
theorem noResults_shortCircuit (q : Str) (co : CoClient) (tv : TvClient)
    (shape : SearchResponse) (h1 : tv.search q = Except.ok shape)
    (h2 : resultsOf shape = []) :
    search_and_answer q (some co) (some tv) =
      ⟨"No information found on this topic.".data, [], 1, 0⟩ := by
  simp [search_and_answer, h1, h2]

/-- Witness for C1: a stub search client whose response has no "results" key. -/
theorem noResults_shortCircuit_w :
    search_and_answer ("anything".data) (some coAnswers) (some tvNoResults) =
      ⟨"No information found on this topic.".data, [], 1, 0⟩ :=
  noResults_shortCircuit _ _ _ (SearchResponse.dict none) rfl rfl

/-- C5: every exception raised by the search or the generation collaborator is
caught: the turn returns text that starts with "Error:" and an empty source
list (the embedding is a total function, so no exception escapes the
orchestrator). -/
theorem exception_downgraded (q : Str) (co : CoClient) (tv : TvClient) (e : Str)
    (h : tv.search q = Except.error e ∨
      ∃ shape, tv.search q = Except.ok shape ∧ resultsOf shape ≠ [] ∧
        co.chat (prompt q (context (resultsOf shape))) = Except.error e) :
    ∃ t, (search_and_answer q (some co) (some tv)).text = "Error: ".data ++ t ∧
      (search_and_answer q (some co) (some tv)).sources = [] := by
  rcases h with h | ⟨shape, h1, h2, h3⟩
  · exact ⟨e, by simp [search_and_answer, h]⟩
  · exact ⟨e, by simp [search_and_answer, h1, h2, h3]⟩

/-- Witness for C5: a stub search client that raises. -/
theorem exception_downgraded_w :
    ∃ t, (search_and_answer ("anything".data) (some coAnswers) (some tvRaises)).text
        = "Error: ".data ++ t ∧
      (search_and_answer ("anything".data) (some coAnswers) (some tvRaises)).sources = [] :=
  exception_downgraded _ _ _ ("boom".data) (Or.inl rfl)

/-- C6: if either client handle is absent, the fixed missing-clients message
and an empty source list are returned, and neither collaborator is called. -/
theorem missing_clients (q : Str) (co_client : Option CoClient)
    (tv_client : Option TvClient) (h : co_client = none ∨ tv_client = none) :
    search_and_answer q co_client tv_client =
      ⟨"Missing API clients. Check API keys.".data, [], 0, 0⟩ := by
  rcases h with h | h
  · subst h; rfl
  · subst h; cases co_client <;> rfl

/-- Witness for C6: the generation client handle is absent. -/
theorem missing_clients_w :
    search_and_answer ("anything".data) none (some tvRaises) =
      ⟨"Missing API clients. Check API keys.".data, [], 0, 0⟩ :=
  missing_clients _ _ _ (Or.inl rfl)

/-- C7: on the successful path the sources returned are exactly the list the
search client returned under "results": unmodified, untruncated and in the
same order, not the truncated context items. -/
theorem sources_are_originals (q : Str) (co : CoClient) (tv : TvClient)
    (shape : SearchResponse) (resp : ChatResponse)
    (h1 : tv.search q = Except.ok shape) (h2 : resultsOf shape ≠ [])
    (h3 : co.chat (prompt q (context (resultsOf shape))) = Except.ok resp) :
    search_and_answer q (some co) (some tv) =
      ⟨extractText resp, resultsOf shape, 1, 1⟩ := by
  simp [search_and_answer, h1, h2, h3]

/-- Witness for C7: three concrete results and a stub chat client. -/
theorem sources_are_originals_w :
    search_and_answer ("q3".data) (some coAnswers) (some tvThreeResults) =
      ⟨extractText ⟨some ("An answer [1].".data), "resp".data⟩, [rA, rB, rC], 1, 1⟩ :=
  sources_are_originals _ _ _ _ _ rfl (by simp [resultsOf]) rfl

/-- C10: a submitted question that is empty or whitespace-only triggers no
orchestration for the turn: the history is returned unchanged and neither the
search nor the generation collaborator is called. -/
theorem blank_question_no_turn (co_client : Option CoClient)
    (tv_client : Option TvClient) (history : List HistoryEntry) (q : Str)
    (hq : pyStrip q = []) :
    processTurn co_client tv_client history (some q) = (history, 0, 0) := by
  simp [processTurn, hq]

/-- Witness for C10: a whitespace-only question. -/
theorem blank_question_no_turn_w :
    processTurn (some coAnswers) (some tvRaises) [] (some ("  ".data)) = ([], 0, 0) :=
  blank_question_no_turn _ _ _ _ (by decide)

/-- One turn either leaves the history unchanged or appends exactly its entry
at the end. -/
theorem processTurn_fst (co_client : Option CoClient) (tv_client : Option TvClient)
    (history : List HistoryEntry) (q : Option Str) :
    (processTurn co_client tv_client history q).1 =
      history ++ (turnEntry co_client tv_client q).toList := by
  cases q with
  | none => simp [processTurn, turnEntry]
  | some q =>
    cases hb : (!q.isEmpty && !(pyStrip q).isEmpty) <;>
      simp [processTurn, turnEntry, hb]

/-- C9: a session only ever appends to the history: after any sequence of
inputs the history equals the initial history followed by the accepted turns'
entries in input order, so reading the history back yields the entries in
exactly the order they were appended, none removed, reordered or modified. -/
theorem history_append_order (co_client : Option CoClient)
    (tv_client : Option TvClient) (init : List HistoryEntry)
    (inputs : List (Option Str)) :
    runSession co_client tv_client init inputs =
      init ++ inputs.filterMap (turnEntry co_client tv_client) := by
  induction inputs generalizing init with
  | nil => simp [runSession]
  | cons q rest ih =>
    have hstep : runSession co_client tv_client init (q :: rest) =
        runSession co_client tv_client
          ((processTurn co_client tv_client init q).1) rest := rfl
    rw [hstep, ih, processTurn_fst]
    cases h : turnEntry co_client tv_client q <;>
      simp [h, List.filterMap_cons, List.append_assoc]

/-- `contextParts` produces one block per search result. -/
theorem contextParts_length (sources : List SearchResult) (i : Nat) :
    (contextParts i sources).length = sources.length := by
  induction sources generalizing i with
  | nil => rfl
  | cons s rest ih => simp [contextParts, ih]

/-- Starting from index `i`, the block at position `k` carries the bracketed
label `i + k`. -/
theorem contextParts_getD (sources : List SearchResult) (i k : Nat)
    (h : k < sources.length) :
    ∃ t, (contextParts i sources).getD k [] =
      "[".data ++ natStr (i + k) ++ "] ".data ++ t := by
  induction sources generalizing i k with
  | nil => simp at h
  | cons s rest ih =>
    cases k with
    | zero =>
      refine ⟨titleOf s.title ++ "\nURL: ".data ++ urlOf s.url ++ "\n".data ++
        snippetOf s.content ++ "\n".data, ?_⟩
      simp [contextParts, contextPart, List.append_assoc]
    | succ k =>
      have h' : k < rest.length := by simpa using h
      obtain ⟨t, ht⟩ := ih (i + 1) k h'
      refine ⟨t, ?_⟩
      rw [show i + (k + 1) = (i + 1) + k by omega]
      simpa [contextParts] using ht

/-- An element of a list at a valid position is a member of the list. -/
theorem getD_mem_of_lt (l : List Str) (k : Nat) (h : k < l.length) :
    l.getD k [] ∈ l := by
  induction l generalizing k with
  | nil => simp at h
  | cons a l ih =>
    cases k with
    | zero => simp
    | succ k =>
      simp only [List.getD_cons_succ]
      exact List.mem_cons_of_mem _ (ih k (by simpa using h))

/-- Occurrence is preserved by appending on the left. -/
theorem occursIn_appendL (n h a : Str) (hx : occursIn n h) :
    occursIn n (a ++ h) := by
  obtain ⟨pre, post, hp⟩ := hx
  exact ⟨a ++ pre, post, by simp [hp, List.append_assoc]⟩

/-- Occurrence is preserved by appending on the right. -/
theorem occursIn_appendR (n h b : Str) (hx : occursIn n h) :
    occursIn n (h ++ b) := by
  obtain ⟨pre, post, hp⟩ := hx
  exact ⟨pre, post ++ b, by simp [hp, List.append_assoc]⟩

/-- A member of the joined parts occurs in the join. -/
theorem occursIn_joinSep (sep : Str) (parts : List Str) (p : Str)
    (hp : p ∈ parts) : occursIn p (joinSep sep parts) := by
  induction parts with
  | nil => simp at hp
  | cons q rest ih =>
    cases rest with
    | nil =>
      simp at hp
      exact ⟨[], [], by simp [joinSep, hp]⟩
    | cons r rs =>
      rcases List.mem_cons.mp hp with h | h
      · exact ⟨[], sep ++ joinSep sep (r :: rs), by simp [joinSep, h, List.append_assoc]⟩
      · obtain ⟨pre, post, hpp⟩ := ih h
        exact ⟨q ++ sep ++ pre, post, by simp [joinSep, hpp, List.append_assoc]⟩

/-- Occurrence is transitive. -/
theorem occursIn_trans (a b c : Str) (h1 : occursIn a b) (h2 : occursIn b c) :
    occursIn a c := by
  obtain ⟨p1, s1, hb⟩ := h1
  obtain ⟨p2, s2, hc⟩ := h2
  exact ⟨p2 ++ p1, s1 ++ s2, by simp [hc, hb, List.append_assoc]⟩

/-- C2: for a non-empty list of N results the builder emits exactly N context
blocks; the block at 0-based position k begins with the bracketed label k+1,
so the labels are 1..N in input order with no gaps and no repeats, and each
label `[k+1]` occurs in the joined context text. -/
theorem context_labels_contiguous (sources : List SearchResult)
    (h : sources ≠ []) :
    (contextParts 1 sources).length = sources.length ∧
    (∀ k, k < sources.length → ∃ t, (contextParts 1 sources).getD k [] =
      "[".data ++ natStr (k + 1) ++ "] ".data ++ t) ∧
    (∀ k, k < sources.length →
      occursIn ("[".data ++ natStr (k + 1) ++ "]".data) (context sources)) := by
  refine ⟨contextParts_length sources 1, fun k hk => ?_, fun k hk => ?_⟩
  · obtain ⟨t, ht⟩ := contextParts_getD sources 1 k hk
    exact ⟨t, by rw [show k + 1 = 1 + k by omega]; exact ht⟩
  · obtain ⟨t, ht⟩ := contextParts_getD sources 1 k hk
    have hlab : occursIn ("[".data ++ natStr (k + 1) ++ "]".data)
        ((contextParts 1 sources).getD k []) := by
      refine ⟨[], " ".data ++ t, ?_⟩
      rw [ht, show (1 + k) = k + 1 by omega,
        show ("] ".data : Str) = "]".data ++ " ".data from rfl]
      simp [List.append_assoc]
    have hmem : (contextParts 1 sources).getD k [] ∈ contextParts 1 sources :=
      getD_mem_of_lt _ k (by rw [contextParts_length]; exact hk)
    exact occursIn_trans _ _ _ hlab (occursIn_joinSep _ _ _ hmem)

/-- C3 counterexample: this content is longer than 800 characters after
collapsing newlines, yet the snippet is not the first 800 characters of the
collapsed string, because line 65 strips surrounding whitespace before
slicing. -/
theorem snippet_cex :
    800 < (replaceNewlines c3content).length ∧
    snippetOf (some c3content) ≠ (replaceNewlines c3content).take 800 := by
  decide

/-- C3 (amended): when the content, after collapsing newlines to spaces AND
trimming surrounding whitespace, is longer than 800 characters, the snippet
is exactly the first 800 characters of that collapsed-and-trimmed string. -/
theorem snippet_first800 (c : Str)
    (h : 800 < (pyStrip (replaceNewlines c)).length) :
    snippetOf (some c) = (pyStrip (replaceNewlines c)).take 800 ∧
    (snippetOf (some c)).length = 800 := by
  refine ⟨rfl, ?_⟩
  simp [snippetOf, List.length_take]
  omega

/-- Witness for C3's amended claim: 801 non-whitespace characters. -/
theorem snippet_first800_w :
    snippetOf (some (List.replicate 801 'a')) =
      (pyStrip (replaceNewlines (List.replicate 801 'a'))).take 800 ∧
    (snippetOf (some (List.replicate 801 'a'))).length = 800 :=
  snippet_first800 _ (by decide)

/-- C4 counterexample: a present-but-empty title is NOT defaulted to
"No title" — the title used in the context block is the empty string. -/
theorem title_cex :
    titleOf (some []) = [] ∧ titleOf (some []) ≠ "No title".data := by
  decide

/-- C4 (amended): the title used in the context block is the trimmed title,
and the "No title" default applies exactly when the title key is absent; a
present title that is empty (or trims to empty) stays empty, it is not
defaulted. -/
theorem title_trim_default (t e : Str) (h : pyStrip e = []) :
    titleOf none = "No title".data ∧
    titleOf (some t) = pyStrip t ∧
    titleOf (some e) ≠ "No title".data := by
  refine ⟨by decide, rfl, ?_⟩
  rw [show titleOf (some e) = pyStrip e from rfl, h]
  decide

/-- Witness for C4's amended claim: a padded title and a whitespace title. -/
theorem title_trim_default_w :
    titleOf none = "No title".data ∧
    titleOf (some ("  Alpha  ".data)) = pyStrip ("  Alpha  ".data) ∧
    titleOf (some (" ".data)) ≠ "No title".data :=
  title_trim_default _ _ (by decide)

/-- The trimmed/defaulted title occurs in its own context block. -/
theorem title_in_contextPart (i : Nat) (s : SearchResult) :
    occursIn (titleOf s.title) (contextPart i s) := by
  refine ⟨"[".data ++ natStr i ++ "] ".data,
    "\nURL: ".data ++ urlOf s.url ++ "\n".data ++ snippetOf s.content ++
      "\n".data, ?_⟩
  simp [contextPart, List.append_assoc]

/-- The citation marker `[i]` occurs at the head of its context block. -/
theorem marker_in_contextPart (i : Nat) (d : Str) (s : SearchResult)
    (hd : natStr i = d) :
    occursIn ("[".data ++ d ++ "]".data) (contextPart i s) := by
  refine ⟨[], " ".data ++ titleOf s.title ++ "\nURL: ".data ++ urlOf s.url ++
    "\n".data ++ snippetOf s.content ++ "\n".data, ?_⟩
  simp [contextPart, hd,
    show ("] ".data : Str) = "]".data ++ " ".data from rfl, List.append_assoc]

/-- Anything that occurs in the context occurs in the composed prompt. -/
theorem occursIn_context_prompt (q ctx n : Str) (h : occursIn n ctx) :
    occursIn n (prompt q ctx) := by
  obtain ⟨pre, post, hp⟩ := h
  refine ⟨"Answer the question: ".data ++ q ++ "\n\n".data ++
      "Use only the following sources and cite them inline as [1], [2], etc.\n\n".data ++
      pre,
    post ++ "\n\n".data ++
      "Requirements:\n- Be factual\n- Cite sources using [n]\n- Include a 'Sources' section with title and URL\n".data,
    ?_⟩
  simp [prompt, hp, List.append_assoc]

/-- The question occurs verbatim in the composed prompt. -/
theorem question_in_prompt (q ctx : Str) : occursIn q (prompt q ctx) := by
  refine ⟨"Answer the question: ".data,
    "\n\n".data ++
      "Use only the following sources and cite them inline as [1], [2], etc.\n\n".data ++
      ctx ++ "\n\n".data ++
      "Requirements:\n- Be factual\n- Cite sources using [n]\n- Include a 'Sources' section with title and URL\n".data,
    ?_⟩
  simp [prompt, List.append_assoc]

/-- The context text built from three results, unfolded. -/
theorem context_three (r1 r2 r3 : SearchResult) :
    context [r1, r2, r3] = contextPart 1 r1 ++ "\n\n".data ++
      (contextPart 2 r2 ++ "\n\n".data ++ contextPart 3 r3) := rfl

/-- C8: for every three-item result list, the composed prompt contains the
question text verbatim, the trimmed/defaulted titles of all three results,
and the citation markers [1], [2] and [3]. -/
theorem prompt_three_items (q : Str) (r1 r2 r3 : SearchResult) :
    occursIn q (prompt q (context [r1, r2, r3])) ∧
    occursIn (titleOf r1.title) (prompt q (context [r1, r2, r3])) ∧
    occursIn (titleOf r2.title) (prompt q (context [r1, r2, r3])) ∧
    occursIn (titleOf r3.title) (prompt q (context [r1, r2, r3])) ∧
    occursIn ("[1]".data) (prompt q (context [r1, r2, r3])) ∧
    occursIn ("[2]".data) (prompt q (context [r1, r2, r3])) ∧
    occursIn ("[3]".data) (prompt q (context [r1, r2, r3])) := by
  have h1 : ∀ n, occursIn n (contextPart 1 r1) →
      occursIn n (context [r1, r2, r3]) := by
    intro n hn
    rw [context_three]
    exact occursIn_appendR _ _ _ (occursIn_appendR _ _ _ hn)
  have h2 : ∀ n, occursIn n (contextPart 2 r2) →
      occursIn n (context [r1, r2, r3]) := by
    intro n hn
    rw [context_three]
    exact occursIn_appendL _ _ _
      (occursIn_appendR _ _ _ (occursIn_appendR _ _ _ hn))
  have h3 : ∀ n, occursIn n (contextPart 3 r3) →
      occursIn n (context [r1, r2, r3]) := by
    intro n hn
    rw [context_three]
    exact occursIn_appendL _ _ _ (occursIn_appendL _ _ _ hn)
  exact ⟨question_in_prompt _ _,
    occursIn_context_prompt _ _ _ (h1 _ (title_in_contextPart 1 r1)),
    occursIn_context_prompt _ _ _ (h2 _ (title_in_contextPart 2 r2)),
    occursIn_context_prompt _ _ _ (h3 _ (title_in_contextPart 3 r3)),
    occursIn_context_prompt _ _ _ (h1 _ (marker_in_contextPart 1 ("1".data) r1 rfl)),
    occursIn_context_prompt _ _ _ (h2 _ (marker_in_contextPart 2 ("2".data) r2 rfl)),
    occursIn_context_prompt _ _ _ (h3 _ (marker_in_contextPart 3 ("3".data) r3 rfl))⟩

/-- Witness for C2 at three concrete results. -/
theorem context_labels_contiguous_w :
    (contextParts 1 [rA, rB, rC]).length = [rA, rB, rC].length ∧
    (∀ k, k < [rA, rB, rC].length → ∃ t, (contextParts 1 [rA, rB, rC]).getD k [] =
      "[".data ++ natStr (k + 1) ++ "] ".data ++ t) ∧
    (∀ k, k < [rA, rB, rC].length →
      occursIn ("[".data ++ natStr (k + 1) ++ "]".data) (context [rA, rB, rC])) :=
  context_labels_contiguous [rA, rB, rC] (by simp)
